import Mathlib

set_option maxHeartbeats 1000000

/-
Shallow embedding of the Jailhouse loader module (src/main.c).

The kernel-side module state (`enabled`, `hypervisor_mem`, `offlined_cpus`,
the module reference and the firmware handle, plus the set of online CPUs)
is modelled as an explicit record `KState`.  Each ioctl entry point
(`jailhouse_enable`, `jailhouse_disable`, `jailhouse_cell_create`) becomes a
pure function from an environment record — the outcomes of the external
collaborators it calls (copy_from_user faults, request_firmware, ioremap,
cpu_down/cpu_up, the per-core entry/hypercall results) — and a pre-state to
a result code (`Int`, negative errno on failure) and a post-state.
Memory contents are not modelled; mappings are tracked as booleans/counters.
-/

namespace Jailhouse

/-- Kernel errno `EINTR` (returned negated). -/
def EINTR : Int := 4

/-- Kernel errno `EFAULT`. -/
def EFAULT : Int := 14

/-- Kernel errno `EBUSY`. -/
def EBUSY : Int := 16

/-- Kernel errno `EINVAL`. -/
def EINVAL : Int := 22

/-- Kernel errno `ENOMEM`. -/
def ENOMEM : Int := 12

/-- Page size used by `PAGE_ALIGN` in `jailhouse_enable`. -/
def PAGE_SIZE : Nat := 4096

/-- Kernel `PAGE_ALIGN(x)`: round `x` up to the next multiple of `PAGE_SIZE`. -/
def PAGE_ALIGN (x : Nat) : Nat := ((x + PAGE_SIZE - 1) / PAGE_SIZE) * PAGE_SIZE

/-- Modelled from the spec: the hypervisor image signature bytes checked by
`memcmp(header->signature, JAILHOUSE_SIGNATURE, ...)`; the header file that
defines the constant is not among the sources, so the signature is taken as
the byte string "JAILHOUS" named by the image-validation step of the spec. -/
def JAILHOUSE_SIGNATURE : List Nat := [74, 65, 73, 76, 72, 79, 85, 83]

/-- `struct jailhouse_memory`: a physical-range descriptor. -/
structure JMemory where
  phys_start : Nat
  virt_start : Nat
  size : Nat
  access_flags : Nat
deriving DecidableEq

/-- `struct jailhouse_system` as read by the loader: the reserved hypervisor
memory region plus the caller-declared total size of the configuration
(header and trailing blob). -/
structure SystemConfig where
  hypervisor_memory : JMemory
  config_size : Nat
deriving DecidableEq

/-- Modelled from the spec: `jailhouse_system_config_size` is defined in a
header that is not among the sources; per the spec it is the size of the
SystemConfig header plus the trailing blob, a value derived only from the
caller's descriptor, carried here as the field `config_size`. -/
def jailhouse_system_config_size (cfg : SystemConfig) : Nat := cfg.config_size

/-- The firmware image (`struct firmware` data viewed through
`struct jailhouse_header`): signature bytes, `bss_end` (end of the core
code/data/bss region), per-CPU area stride, and total image byte count. -/
structure Firmware where
  signature : List Nat
  bss_end : Nat
  percpu_size : Nat
  size : Nat
deriving DecidableEq

/-- The module-level state of main.c: `enabled`, whether `hypervisor_mem`
is currently mapped, the `offlined_cpus` mask, the set of online CPUs,
whether the module reference (`try_module_get`) is held, whether a firmware
handle (`request_firmware`) is held, and how many temporary cell-memory
mappings are outstanding. -/
structure KState where
  enabled : Bool
  mapped : Bool
  offlined : Finset ℕ
  online : Finset ℕ
  moduleRef : Bool
  fwHeld : Bool
  cellMaps : Nat
deriving DecidableEq

/-- One step of the per-core result accumulation in `enter_hypervisor` /
`leave_hypervisor`: `if (err) error_code = err;`. -/
def per_core_step (error_code : Int) (err : Int) : Int :=
  if err ≠ 0 then err else error_code

/-- The rendezvous-barrier aggregation: `error_code` starts at `0` and each
core's result is folded in with `per_core_step`, the fold order being the
core-id order of the per-core result list. -/
def barrier_aggregate (rs : List Int) : Int :=
  rs.foldl per_core_step 0

/-- External outcomes consumed by `jailhouse_enable`: the two
`copy_from_user` calls, `mutex_lock_interruptible`, `try_module_get`,
`request_firmware` (the image when available, the nonzero errno otherwise),
the caller's system config, `num_possible_cpus()`, `jailhouse_ioremap`,
and the per-core results of `entry(cpu)` for the online cores. -/
structure EnableEnv where
  copyHeaderFault : Bool
  lockInterrupted : Bool
  moduleGetOk : Bool
  firmware : Option Firmware
  requestFirmwareErr : Int
  config : SystemConfig
  numPossibleCpus : Nat
  ioremapOk : Bool
  copyConfigFault : Bool
  coreResults : List Int

/-- The layout check of `jailhouse_enable`:
`hv_mem->size <= hv_core_size + percpu_size + config_size`. -/
def layout_overflow (env : EnableEnv) (fw : Firmware) : Bool :=
  env.config.hypervisor_memory.size ≤
    PAGE_ALIGN fw.bss_end + env.numPossibleCpus * fw.percpu_size +
      jailhouse_system_config_size env.config

/-- `jailhouse_enable` (main.c, JAILHOUSE_ENABLE ioctl), one exit point per
`goto` target of the source: copy the config header, take the lock, reject
when already enabled or the module reference cannot be taken, request the
firmware, check its signature, run the layout check, map the hypervisor
region, copy the caller's config, run the rendezvous barrier, and either
commit (`enabled = true`) or unwind along the error labels
(`error_unmap` / `error_release_fw` / `error_put_module` / `error_unlock`). -/
def jailhouse_enable (env : EnableEnv) (s0 : KState) : Int × KState :=
  if env.copyHeaderFault then (-EFAULT, s0)
  else if env.lockInterrupted then (-EINTR, s0)
  else if s0.enabled then (-EBUSY, s0)
  else if !env.moduleGetOk then (-EBUSY, s0)
  else
    let s1 : KState := { s0 with moduleRef := true }
    match env.firmware with
    | none => (env.requestFirmwareErr, { s1 with moduleRef := false })
    | some fw =>
      let s2 : KState := { s1 with fwHeld := true }
      if fw.signature ≠ JAILHOUSE_SIGNATURE then
        (-EINVAL, { s2 with fwHeld := false, moduleRef := false })
      else if layout_overflow env fw then
        (-EINVAL, { s2 with fwHeld := false, moduleRef := false })
      else if !env.ioremapOk then
        (-EINVAL, { s2 with fwHeld := false, moduleRef := false })
      else
        let s3 : KState := { s2 with mapped := true }
        if env.copyConfigFault then
          (-EFAULT, { s3 with mapped := false, fwHeld := false, moduleRef := false })
        else
          let agg := barrier_aggregate env.coreResults
          if agg ≠ 0 then
            (agg, { s3 with mapped := false, fwHeld := false, moduleRef := false })
          else
            (0, { s3 with fwHeld := false, enabled := true })

/-- External outcomes consumed by `jailhouse_disable`:
`mutex_lock_interruptible`, the per-core results of
`jailhouse_call0(JAILHOUSE_HC_DISABLE)` for the online cores, and the
outcome of `cpu_up` for each CPU it is attempted on. -/
structure DisableEnv where
  lockInterrupted : Bool
  coreResults : List Int
  cpuUpOk : Nat → Bool

/-- The `for_each_cpu_mask(cpu, offlined_cpus)` loop of `jailhouse_disable`:
every CPU of the mask whose `cpu_up` succeeds becomes online again; a CPU
whose `cpu_up` fails is only logged.  The loop's effect on the online set
does not depend on its iteration order, so it is rendered as a set update. -/
def bring_back_online (upOk : Nat → Bool) (offl onl : Finset ℕ) : Finset ℕ :=
  onl ∪ offl.filter (fun c => upOk c = true)

/-- `jailhouse_disable` (main.c, JAILHOUSE_DISABLE ioctl): take the lock,
reject when not enabled, run the rendezvous barrier of `leave_hypervisor`
calls; on barrier failure return the aggregate leaving everything in place
(`unlock_out`); on success unmap `hypervisor_mem`, attempt `cpu_up` on every
CPU of `offlined_cpus` (the mask itself is never cleared), clear `enabled`
and drop the module reference. -/
def jailhouse_disable (env : DisableEnv) (s : KState) : Int × KState :=
  if env.lockInterrupted then (-EINTR, s)
  else if !s.enabled then (-EINVAL, s)
  else
    let agg := barrier_aggregate env.coreResults
    if agg ≠ 0 then (agg, s)
    else
      (0, { s with mapped := false,
                   online := bring_back_online env.cpuUpOk s.offlined s.online,
                   enabled := false,
                   moduleRef := false })

/-- Modelled from the spec: `JAILHOUSE_CELL_NAME_MAXLEN`, the index of the
final byte of the cell descriptor's fixed-size `name` array, is defined in a
header that is not among the sources; the spec only names the `name` field,
so the bound is fixed at an arbitrary concrete value (the claims hold for
any value with the array one byte longer than the bound). -/
def JAILHOUSE_CELL_NAME_MAXLEN : Nat := 31

/-- `struct jailhouse_preload_image`: source user address, target offset
into the cell's RAM region, and byte count. -/
structure PreloadImage where
  source_address : Nat
  target_address : Nat
  size : Nat
deriving DecidableEq

/-- `struct jailhouse_new_cell` with its single preload image. -/
structure NewCell where
  config_size : Nat
  num_preload_images : Nat
  image : PreloadImage
deriving DecidableEq

/-- `struct jailhouse_cell_desc` together with the CPU-mask bytes and the
memory regions that follow it in the kmalloc'ed configuration buffer:
the `name` byte array, `cpu_set_size` (number of mask bytes),
`num_memory_regions`, the mask bytes themselves and the region list. -/
structure CellDesc where
  name : List Nat
  cpu_set_size : Nat
  num_memory_regions : Nat
  cpu_mask : List Nat
  mem_regions : List JMemory
deriving DecidableEq

/-- The NUL-termination write `config->name[JAILHOUSE_CELL_NAME_MAXLEN] = 0`
performed right after the configuration is copied in from user memory. -/
def sanitize_config (c : CellDesc) : CellDesc :=
  { c with name := c.name.set JAILHOUSE_CELL_NAME_MAXLEN 0 }

/-- The CPUs selected by the descriptor's CPU mask, in the order the two
nested loops of `jailhouse_cell_create` visit them: the loops enumerate
`cpu = mask_pos * 8 + bit_pos` for `mask_pos < cpu_set_size` and
`bit_pos < 8`, i.e. every `cpu < 8 * cpu_set_size` in increasing order,
keeping those whose bit `cpu % 8` of mask byte `cpu / 8` is set. -/
def mask_cpus (cpu_set_size : Nat) (cpu_mask : List Nat) : List Nat :=
  (List.range (cpu_set_size * 8)).filter
    (fun cpu => decide (cpu_mask.getD (cpu / 8) 0 &&& (1 <<< (cpu % 8)) ≠ 0))

/-- The CPU-offlining loop of `jailhouse_cell_create`: visit the masked CPUs
in order; a CPU that is online is taken down — on `cpu_down` failure the
loop aborts with that error (`goto kfree_config_out`), leaving the sets as
they are at that point; on success the CPU leaves the online set and is
added to `offlined_cpus`.  Returns the error (if any) and the final online
and offlined sets. -/
def offline_loop (downErr : Nat → Int) :
    List Nat → Finset ℕ → Finset ℕ → Option Int × Finset ℕ × Finset ℕ
  | [], onl, offl => (none, onl, offl)
  | cpu :: rest, onl, offl =>
    if cpu ∈ onl then
      if downErr cpu ≠ 0 then (some (downErr cpu), onl, offl)
      else offline_loop downErr rest (onl.erase cpu) (insert cpu offl)
    else offline_loop downErr rest onl offl

/-- The memory validation of `jailhouse_cell_create`:
`config->num_memory_regions < 1 || ram->size < 1024 * 1024 ||
image->target_address + image->size > ram->size`, where `ram` is the first
memory region of the descriptor. -/
def cell_mem_invalid (config : CellDesc) (image : PreloadImage) : Bool :=
  decide (config.num_memory_regions < 1) ||
  decide ((config.mem_regions.getD 0 ⟨0, 0, 0, 0⟩).size < 1024 * 1024) ||
  decide (image.target_address + image.size >
    (config.mem_regions.getD 0 ⟨0, 0, 0, 0⟩).size)

/-- External outcomes consumed by `jailhouse_cell_create`: the four
`copy_from_user` calls, `kmalloc`, the cell request and the configuration
read from the caller, per-CPU `cpu_down` results, `jailhouse_ioremap` on the
cell RAM, `mutex_lock_interruptible`, and the result of
`jailhouse_call1(JAILHOUSE_HC_CELL_CREATE, ...)`. -/
structure CellEnv where
  copyCellFault : Bool
  copyImageFault : Bool
  kmallocOk : Bool
  copyConfigFault : Bool
  cell : NewCell
  config : CellDesc
  downErr : Nat → Int
  cellIoremapOk : Bool
  copyPreloadFault : Bool
  lockInterrupted : Bool
  hypercallResult : Int

/-- `jailhouse_cell_create` (main.c, JAILHOUSE_CELL_CREATE ioctl): copy the
cell request and its single preload-image descriptor, allocate and copy the
configuration, NUL-terminate its name, run the CPU-offlining loop, validate
the first memory region against the preload image, map and zero the cell
RAM, copy the preload image into it, take the lock, require `enabled`, and
issue the create-cell hypercall.  The third result component records the
configuration handed to the hypercall (`none` when that point is never
reached).  Exit paths follow the source's labels; note that the
interrupted-lock path jumps to `kfree_config_out`, skipping the
`iounmap_out` label, so the temporary cell mapping stays outstanding. -/
def jailhouse_cell_create (env : CellEnv) (s : KState) :
    Int × KState × Option CellDesc :=
  if env.copyCellFault then (-EFAULT, s, none)
  else if env.cell.num_preload_images ≠ 1 then (-EINVAL, s, none)
  else if env.copyImageFault then (-EFAULT, s, none)
  else if !env.kmallocOk then (-ENOMEM, s, none)
  else if env.copyConfigFault then (-EFAULT, s, none)
  else
    let config := sanitize_config env.config
    let image := env.cell.image
    match offline_loop env.downErr (mask_cpus config.cpu_set_size config.cpu_mask)
        s.online s.offlined with
    | (some e, onl, offl) => (e, { s with online := onl, offlined := offl }, none)
    | (none, onl, offl) =>
      let s1 : KState := { s with online := onl, offlined := offl }
      if cell_mem_invalid config image then
        (-EINVAL, s1, none)
      else if !env.cellIoremapOk then (-EBUSY, s1, none)
      else
        let s2 : KState := { s1 with cellMaps := s1.cellMaps + 1 }
        if env.copyPreloadFault then
          (-EFAULT, { s2 with cellMaps := s2.cellMaps - 1 }, none)
        else if env.lockInterrupted then
          (-EINTR, s2, none)
        else if !s2.enabled then
          (-EINVAL, { s2 with cellMaps := s2.cellMaps - 1 }, none)
        else if env.hypercallResult ≠ 0 then
          (env.hypercallResult, { s2 with cellMaps := s2.cellMaps - 1 }, some config)
        else
          (0, { s2 with cellMaps := s2.cellMaps - 1 }, some config)

/-- The last non-success entry of a per-core result list in core-id order
(`0` when every entry is success). -/
def last_error (rs : List Int) : Int :=
  (rs.reverse.find? (fun r => r != 0)).getD 0

/-- The aggregate described by the spec sentence: the first non-success
entry of the per-core result list in core-id order (`0` when every entry is
success).  Stated only to be compared with `barrier_aggregate`. -/
def spec_first_error (rs : List Int) : Int :=
  (rs.find? (fun r => r != 0)).getD 0

/-- Sample state: hypervisor enabled and mapped, CPU 2 offlined for a cell,
CPUs 0 and 1 online. -/
def s_enabled : KState := ⟨true, true, {2}, {0, 1}, true, false, 0⟩

/-- Sample state: hypervisor disabled, four CPUs online. -/
def s_disabled : KState := ⟨false, false, ∅, {0, 1, 2, 3}, false, false, 0⟩

/-- Sample disable environment: both cores report success, `cpu_up` works. -/
def env_disable_ok : DisableEnv := ⟨false, [0, 0], fun _ => true⟩

/-- Sample disable environment: the second core fails its exit hypercall. -/
def env_disable_fail : DisableEnv := ⟨false, [0, -16], fun _ => true⟩

/-- Sample firmware image: valid signature, 1 MiB core region (already page
aligned), 4 KiB per-CPU stride. -/
def fw_demo : Firmware := ⟨JAILHOUSE_SIGNATURE, 1048576, 4096, 1000000⟩

/-- Hypervisor region whose size equals the layout sum exactly
(0x100000 + 4 * 0x1000 + 0x1000 = 0x105000 bytes). -/
def cfg_boundary_fail : SystemConfig := ⟨⟨1073741824, 0, 1069056, 7⟩, 4096⟩

/-- Hypervisor region one byte larger than the layout sum. -/
def cfg_boundary_pass : SystemConfig := ⟨⟨1073741824, 0, 1069057, 7⟩, 4096⟩

/-- Enable environment on 4 CPUs whose region exactly matches the sum. -/
def env_enable_boundary_fail : EnableEnv :=
  ⟨false, false, true, some fw_demo, -2, cfg_boundary_fail, 4, true, false,
    [0, 0, 0, 0]⟩

/-- Enable environment on 4 CPUs with one spare byte; all cores succeed. -/
def env_enable_boundary_pass : EnableEnv :=
  ⟨false, false, true, some fw_demo, -2, cfg_boundary_pass, 4, true, false,
    [0, 0, 0, 0]⟩

/-- Enable environment whose initial `copy_from_user` faults. -/
def env_enable_fault : EnableEnv :=
  ⟨true, false, true, none, -2, cfg_boundary_pass, 4, true, false, []⟩

/-- Sample cell descriptor: one mask byte selecting CPUs 2 and 3, one
memory region of exactly 1 MiB. -/
def cell_cfg_min : CellDesc :=
  ⟨List.replicate 32 65, 1, 1, [12], [⟨62914560, 0, 1048576, 7⟩]⟩

/-- Sample cell request: one preload image of 8 KiB at offset 0. -/
def cell_req : NewCell := ⟨4096, 1, ⟨0, 0, 8192⟩⟩

/-- Cell-create environment where every external step succeeds. -/
def env_cell_ok : CellEnv :=
  ⟨false, false, true, false, cell_req, cell_cfg_min, fun _ => 0, true,
    false, false, 0⟩

/-- Cell-create environment whose lock acquisition is interrupted. -/
def env_cell_intr : CellEnv := { env_cell_ok with lockInterrupted := true }

/-- Cell-create environment where taking CPU 3 offline fails with `-EBUSY`. -/
def env_cell_downfail : CellEnv :=
  { env_cell_ok with downErr := fun c => if c = 3 then -16 else 0 }

/-- Sample state for cell creation: enabled, CPUs 0-3 online. -/
def s_cell : KState := ⟨true, true, ∅, {0, 1, 2, 3}, true, false, 0⟩

lemma foldl_per_core_step (rs : List Int) : ∀ acc : Int,
    rs.foldl per_core_step acc = (rs.reverse.find? (fun r => r != 0)).getD acc := by
  induction rs with
  | nil => intro acc; rfl
  | cons r rs ih =>
    intro acc
    rw [List.foldl_cons, ih, List.reverse_cons, List.find?_append]
    cases h : rs.reverse.find? (fun r => r != 0) with
    | some v => simp [h, Option.or]
    | none =>
      rw [Option.none_or, Option.getD_none]
      by_cases hr : r = 0
      · rw [List.find?_cons_of_neg _ (by simp [hr]), List.find?_nil]
        simp [per_core_step, hr]
      · rw [List.find?_cons_of_pos _ (by simp [hr])]
        simp [per_core_step, hr]

/-- The barrier aggregation computes the last non-success per-core result. -/
lemma barrier_aggregate_eq_last_error (rs : List Int) :
    barrier_aggregate rs = last_error rs :=
  foldl_per_core_step rs 0

/-- The barrier aggregation is success exactly when every core succeeded. -/
lemma barrier_aggregate_eq_zero_iff (rs : List Int) :
    barrier_aggregate rs = 0 ↔ ∀ r ∈ rs, r = 0 := by
  rw [barrier_aggregate_eq_last_error, last_error]
  cases h : rs.reverse.find? (fun r => r != 0) with
  | none =>
    rw [List.find?_eq_none] at h
    simp only [Option.getD_none, eq_self_iff_true, true_iff]
    intro r hr
    have := h r (List.mem_reverse.mpr hr)
    simpa using this
  | some v =>
    have hv := List.find?_some h
    have hmem := List.mem_of_find?_eq_some h
    simp only [Option.getD_some]
    constructor
    · intro h0
      rw [h0] at hv
      simp at hv
    · intro hall
      have hz : v = 0 := hall v (List.mem_reverse.mp hmem)
      rw [hz] at hv
      simp at hv

/-- Claim C1, counterexample: a Disable invocation on two cores whose
per-core results are `[-16, -22]` aggregates to `-22`, the LAST non-success
result, while the claim's aggregate (`spec_first_error`) is the first one,
`-16`. -/
theorem c1_counterexample :
    (jailhouse_disable ⟨false, [-16, -22], fun _ => true⟩
        ⟨true, true, ∅, {0, 1}, true, false, 0⟩).1 = -22 ∧
    spec_first_error [-16, -22] = -16 ∧
    ¬ ((-22 : Int) = -16) := by
  refine ⟨?_, by decide, by decide⟩
  decide

/-- Claim C1 (amended): for per-core results `r0..rN-1` the aggregated
result of the rendezvous barrier is success iff every `ri` is success;
otherwise it equals the LAST non-success `ri` encountered in core-id order
(the source overwrites `error_code` on every failing core, so when the
failing cores disagree the last write wins, not the first). -/
theorem c1_barrier_aggregate_amended (rs : List Int) :
    (barrier_aggregate rs = 0 ↔ ∀ r ∈ rs, r = 0) ∧
    barrier_aggregate rs = last_error rs :=
  ⟨barrier_aggregate_eq_zero_iff rs, barrier_aggregate_eq_last_error rs⟩

/-- Claim C2, counterexample: a fully successful Disable from a state where
CPU 2 is recorded in `offlined_cpus` returns success but leaves
`offlined_cpus` still holding CPU 2 — the mask is never cleared, while the
claim requires it to be left empty. -/
theorem c2_counterexample :
    (jailhouse_disable env_disable_ok s_enabled).1 = 0 ∧
    ¬ ((jailhouse_disable env_disable_ok s_enabled).2.offlined = ∅) := by
  constructor
  · decide
  · decide

/-- Claim C2 (amended): when Disable's rendezvous barrier succeeds, Disable
unmaps the hypervisor memory region, attempts to bring every core in
OfflinedCores back online (a failure is only logged), leaves OfflinedCores
UNCHANGED (the source never clears the mask), sets the activation state to
Disabled, releases the in-use guard, and returns success. -/
theorem c2_disable_success_amended (env : DisableEnv) (s : KState)
    (h1 : env.lockInterrupted = false) (h2 : s.enabled = true)
    (h3 : barrier_aggregate env.coreResults = 0) :
    (jailhouse_disable env s).1 = 0 ∧
    (jailhouse_disable env s).2.enabled = false ∧
    (jailhouse_disable env s).2.mapped = false ∧
    (jailhouse_disable env s).2.moduleRef = false ∧
    (jailhouse_disable env s).2.offlined = s.offlined ∧
    (∀ c ∈ s.online, c ∈ (jailhouse_disable env s).2.online) ∧
    (∀ c ∈ s.offlined, env.cpuUpOk c = true →
      c ∈ (jailhouse_disable env s).2.online) := by
  simp only [jailhouse_disable, h1, h2, if_false, Bool.not_true,
    Bool.false_eq_true, ite_false, h3, ne_eq, not_true_eq_false]
  refine ⟨trivial, trivial, trivial, trivial, trivial, ?_, ?_⟩
  · intro c hc
    simp [bring_back_online, hc]
  · intro c hc hup
    simp [bring_back_online, hc, hup]

/-- Claim C2, witness: a concrete successful Disable from `s_enabled`:
returns 0, state becomes disabled, and the offlined CPU 2 (whose `cpu_up`
succeeds) is back in the online set. -/
theorem c2_witness :
    env_disable_ok.lockInterrupted = false ∧ s_enabled.enabled = true ∧
    barrier_aggregate env_disable_ok.coreResults = 0 ∧
    (jailhouse_disable env_disable_ok s_enabled).1 = 0 ∧
    (jailhouse_disable env_disable_ok s_enabled).2.enabled = false ∧
    2 ∈ (jailhouse_disable env_disable_ok s_enabled).2.online :=
  ⟨by decide, by decide, by decide,
    (c2_disable_success_amended env_disable_ok s_enabled (by decide) (by decide)
      (by decide)).1,
    (c2_disable_success_amended env_disable_ok s_enabled (by decide) (by decide)
      (by decide)).2.1,
    (c2_disable_success_amended env_disable_ok s_enabled (by decide) (by decide)
      (by decide)).2.2.2.2.2.2 2 (by decide) (by decide)⟩

/-- Claim C4: when the rendezvous barrier during Disable reports a
non-success aggregate, Disable returns exactly that aggregate and the state
is completely untouched — the hypervisor region stays mapped and the
activation state stays Enabled. -/
theorem c4_disable_barrier_failure (env : DisableEnv) (s : KState)
    (h1 : env.lockInterrupted = false) (h2 : s.enabled = true)
    (h3 : barrier_aggregate env.coreResults ≠ 0) :
    jailhouse_disable env s = (barrier_aggregate env.coreResults, s) := by
  simp [jailhouse_disable, h1, h2, h3]

/-- Claim C4, witness: a Disable whose second core fails with `-16` returns
`-16` and leaves the enabled, mapped state intact. -/
theorem c4_witness :
    barrier_aggregate env_disable_fail.coreResults = -16 ∧
    jailhouse_disable env_disable_fail s_enabled = (-16, s_enabled) ∧
    s_enabled.enabled = true ∧ s_enabled.mapped = true :=
  ⟨by decide,
    by rw [c4_disable_barrier_failure env_disable_fail s_enabled (by decide)
      (by decide) (by decide)]; decide,
    by decide, by decide⟩

/-- Claim C5: every failure of Enable — before the rendezvous barrier or
reported by it — leaves the module state exactly as it was: any mapping and
copy is unwound, the firmware handle and the in-use guard are released, and
the activation state stays Disabled.  The hypotheses say the pre-state is a
quiescent disabled one (nothing mapped, no guard, no firmware handle). -/
theorem c5_enable_failure_unwinds (env : EnableEnv) (s : KState)
    (hen : s.enabled = false) (hm : s.mapped = false)
    (hr : s.moduleRef = false) (hf : s.fwHeld = false)
    (herr : (jailhouse_enable env s).1 ≠ 0) :
    (jailhouse_enable env s).2 = s := by
  rcases s with ⟨en, mp, ofl, onl, mr, fh, cm⟩
  simp only at hen hm hr hf
  subst hen; subst hm; subst hr; subst hf
  by_cases h1 : env.copyHeaderFault
  · simp [jailhouse_enable, h1]
  by_cases h2 : env.lockInterrupted
  · simp [jailhouse_enable, h1, h2]
  by_cases h3 : env.moduleGetOk
  case neg => simp [jailhouse_enable, h1, h2, h3]
  cases hfw : env.firmware with
  | none => simp [jailhouse_enable, h1, h2, h3, hfw]
  | some fw =>
    by_cases h4 : fw.signature = JAILHOUSE_SIGNATURE
    case neg => simp [jailhouse_enable, h1, h2, h3, hfw, h4]
    by_cases h5 : layout_overflow env fw
    · simp [jailhouse_enable, h1, h2, h3, hfw, h4, h5]
    by_cases h6 : env.ioremapOk
    case neg => simp [jailhouse_enable, h1, h2, h3, hfw, h4, h5, h6]
    by_cases h7 : env.copyConfigFault
    · simp [jailhouse_enable, h1, h2, h3, hfw, h4, h5, h6, h7]
    by_cases h8 : barrier_aggregate env.coreResults = 0
    · simp [jailhouse_enable, h1, h2, h3, hfw, h4, h5, h6, h7, h8] at herr
    · simp [jailhouse_enable, h1, h2, h3, hfw, h4, h5, h6, h7, h8]

/-- Claim C5, witness: an Enable whose first user copy faults on a quiescent
disabled state fails and returns the state unchanged. -/
theorem c5_witness :
    s_disabled.enabled = false ∧
    (jailhouse_enable env_enable_fault s_disabled).1 ≠ 0 ∧
    (jailhouse_enable env_enable_fault s_disabled).2 = s_disabled :=
  ⟨by decide, by decide,
    c5_enable_failure_unwinds env_enable_fault s_disabled (by decide)
      (by decide) (by decide) (by decide) (by decide)⟩

/-- Claim C3: with a validated image (signature match, firmware present) and
the guards passed, Enable fails the layout check with `-EINVAL` exactly when
`PAGE_ALIGN(bss_end) + num_cpus * percpu_size + config_size` reaches the
hypervisor region's size; when the sum is strictly below the size the layout
check passes and (all later steps succeeding) Enable returns success. -/
theorem c3_enable_layout_boundary (env : EnableEnv) (s : KState)
    (fw : Firmware)
    (h1 : env.copyHeaderFault = false) (h2 : env.lockInterrupted = false)
    (hen : s.enabled = false) (h3 : env.moduleGetOk = true)
    (hfw : env.firmware = some fw)
    (hsig : fw.signature = JAILHOUSE_SIGNATURE) :
    (env.config.hypervisor_memory.size ≤
        PAGE_ALIGN fw.bss_end + env.numPossibleCpus * fw.percpu_size +
          jailhouse_system_config_size env.config →
      (jailhouse_enable env s).1 = -EINVAL) ∧
    (PAGE_ALIGN fw.bss_end + env.numPossibleCpus * fw.percpu_size +
          jailhouse_system_config_size env.config <
        env.config.hypervisor_memory.size →
      env.ioremapOk = true → env.copyConfigFault = false →
      barrier_aggregate env.coreResults = 0 →
      (jailhouse_enable env s).1 = 0) := by
  constructor
  · intro hovf
    have hlo : layout_overflow env fw = true := by
      simp [layout_overflow, hovf]
    simp [jailhouse_enable, h1, h2, hen, h3, hfw, hsig, hlo]
  · intro hfit h6 h7 h8
    have hlo : layout_overflow env fw = false := by
      simp [layout_overflow]
      exact hfit
    simp [jailhouse_enable, h1, h2, hen, h3, hfw, hsig, hlo, h6, h7, h8]

/-- Claim C3, witness: with a 1 MiB core region, 4 CPUs of 4 KiB stride and
a 4 KiB config (sum 0x105000), a region of exactly 0x105000 bytes fails with
`-EINVAL` and a region of 0x105001 bytes enables successfully. -/
theorem c3_witness :
    (jailhouse_enable env_enable_boundary_fail s_disabled).1 = -EINVAL ∧
    (jailhouse_enable env_enable_boundary_pass s_disabled).1 = 0 :=
  ⟨(c3_enable_layout_boundary env_enable_boundary_fail s_disabled fw_demo
      (by decide) (by decide) (by decide) (by decide) (by decide)
      (by decide)).1 (by decide),
    (c3_enable_layout_boundary env_enable_boundary_pass s_disabled fw_demo
      (by decide) (by decide) (by decide) (by decide) (by decide)
      (by decide)).2 (by decide) (by decide) (by decide) (by decide)⟩

/-- Invariants of the CPU-offlining loop, for every prefix outcome: the
offlined set only grows, the online set only shrinks, every offlined-set
member comes from the initial offlined set or the initial online set, a CPU
offlined by this run is not online afterwards, and a reported abort error is
a nonzero `cpu_down` result. -/
lemma offline_loop_spec (downErr : Nat → Int) :
    ∀ (cpus : List Nat) (onl offl : Finset ℕ),
      offl ⊆ (offline_loop downErr cpus onl offl).2.2 ∧
      (offline_loop downErr cpus onl offl).2.1 ⊆ onl ∧
      (offline_loop downErr cpus onl offl).2.2 ⊆ offl ∪ onl ∧
      (∀ c ∈ (offline_loop downErr cpus onl offl).2.2, c ∉ offl →
        c ∉ (offline_loop downErr cpus onl offl).2.1) ∧
      (∀ e, (offline_loop downErr cpus onl offl).1 = some e → e ≠ 0) := by
  intro cpus
  induction cpus with
  | nil =>
    intro onl offl
    refine ⟨Finset.Subset.refl _, Finset.Subset.refl _,
      Finset.subset_union_left, ?_, ?_⟩
    · intro c hc hcn
      exact absurd hc hcn
    · intro e he
      simp [offline_loop] at he
  | cons cpu rest ih =>
    intro onl offl
    by_cases hon : cpu ∈ onl
    · by_cases hdn : downErr cpu ≠ 0
      · have hres : offline_loop downErr (cpu :: rest) onl offl =
            (some (downErr cpu), onl, offl) := by
          simp [offline_loop, hon, hdn]
        rw [hres]
        refine ⟨Finset.Subset.refl _, Finset.Subset.refl _,
          Finset.subset_union_left, ?_, ?_⟩
        · intro c hc hcn
          exact absurd hc hcn
        · intro e he
          simp only [Option.some_inj] at he
          rw [he] at hdn
          exact hdn
      · have hres : offline_loop downErr (cpu :: rest) onl offl =
            offline_loop downErr rest (onl.erase cpu) (insert cpu offl) := by
          simp [offline_loop, hon, hdn]
        rw [hres]
        obtain ⟨i1, i2, i3, i4, i5⟩ := ih (onl.erase cpu) (insert cpu offl)
        refine ⟨?_, ?_, ?_, ?_, i5⟩
        · exact (Finset.subset_insert cpu offl).trans i1
        · exact i2.trans (Finset.erase_subset cpu onl)
        · intro c hc
          have := i3 hc
          rw [Finset.mem_union] at this ⊢
          rcases this with hcl | hcr
          · rw [Finset.mem_insert] at hcl
            rcases hcl with hceq | hcin
            · right; rw [hceq]; exact hon
            · left; exact hcin
          · right; exact (Finset.erase_subset cpu onl) hcr
        · intro c hc hcn
          by_cases hci : c ∈ insert cpu offl
          · rw [Finset.mem_insert] at hci
            rcases hci with hceq | hcin
            · intro hmem
              have := i2 hmem
              rw [hceq] at this
              exact absurd this (Finset.not_mem_erase cpu onl)
            · exact absurd hcin hcn
          · exact i4 c hc hci
    · have hres : offline_loop downErr (cpu :: rest) onl offl =
          offline_loop downErr rest onl offl := by
        simp [offline_loop, hon]
      rw [hres]
      exact ih onl offl

/-- NUL-terminating the name does not change the fields read by the memory
validation. -/
lemma cell_mem_invalid_sanitize (c : CellDesc) (i : PreloadImage) :
    cell_mem_invalid (sanitize_config c) i = cell_mem_invalid c i := rfl

/-- NUL-terminating the name does not change the CPU-mask byte count. -/
lemma sanitize_config_cpu_set_size (c : CellDesc) :
    (sanitize_config c).cpu_set_size = c.cpu_set_size := rfl

/-- NUL-terminating the name does not change the CPU-mask bytes. -/
lemma sanitize_config_cpu_mask (c : CellDesc) :
    (sanitize_config c).cpu_mask = c.cpu_mask := rfl

/-- The memory validation in propositional form. -/
lemma cell_mem_invalid_iff (c : CellDesc) (i : PreloadImage) :
    cell_mem_invalid c i = true ↔
      (c.num_memory_regions < 1 ∨
        (c.mem_regions.getD 0 ⟨0, 0, 0, 0⟩).size < 1024 * 1024 ∨
        i.target_address + i.size >
          (c.mem_regions.getD 0 ⟨0, 0, 0, 0⟩).size) := by
  simp only [cell_mem_invalid, Bool.or_eq_true, decide_eq_true_eq, or_assoc]

/-- The memory validation passes when the descriptor satisfies the spec's
cell-memory invariant. -/
lemma cell_mem_invalid_eq_false (c : CellDesc) (i : PreloadImage)
    (h1 : 1 ≤ c.num_memory_regions)
    (h2 : 1024 * 1024 ≤ (c.mem_regions.getD 0 ⟨0, 0, 0, 0⟩).size)
    (h3 : i.target_address + i.size ≤
      (c.mem_regions.getD 0 ⟨0, 0, 0, 0⟩).size) :
    cell_mem_invalid c i = false := by
  simp only [cell_mem_invalid, Bool.or_eq_false_iff, decide_eq_false_iff_not,
    not_lt, gt_iff_lt]
  exact ⟨⟨h1, h2⟩, h3⟩

/-- Claim C6, counterexample: CreateCell from a disabled state with a mask
naming online CPUs 2 and 3 fails with `-EINVAL` (NotEnabled) but the state
HAS changed: the CPUs were taken offline and recorded in `offlined_cpus`
before the enabled check runs, and they are not rolled back. -/
theorem c6_counterexample :
    s_disabled.enabled = false ∧
    (jailhouse_cell_create env_cell_ok s_disabled).1 = -EINVAL ∧
    ¬ ((jailhouse_cell_create env_cell_ok s_disabled).2.1 = s_disabled) := by
  refine ⟨by decide, by decide, by decide⟩

/-- Claim C6 (amended): Enable fails with `-EBUSY` whenever the state is not
Disabled (already enabled, or the in-use guard cannot be taken) and Disable
fails with `-EINVAL` whenever the state is not Enabled, both with no state
change; CreateCell also fails with `-EINVAL` when the state is not Enabled,
but only after its CPU-mask processing has run, so the cores it took offline
stay offline and stay recorded in `offlined_cpus`. -/
theorem c6_state_guards_amended :
    (∀ (env : EnableEnv) (s : KState), env.copyHeaderFault = false →
      env.lockInterrupted = false →
      (s.enabled = true ∨ env.moduleGetOk = false) →
      jailhouse_enable env s = (-EBUSY, s)) ∧
    (∀ (env : DisableEnv) (s : KState), env.lockInterrupted = false →
      s.enabled = false → jailhouse_disable env s = (-EINVAL, s)) ∧
    (∀ (env : CellEnv) (s : KState) (onl offl : Finset ℕ),
      env.copyCellFault = false → env.cell.num_preload_images = 1 →
      env.copyImageFault = false → env.kmallocOk = true →
      env.copyConfigFault = false →
      offline_loop env.downErr
          (mask_cpus env.config.cpu_set_size env.config.cpu_mask)
          s.online s.offlined = (none, onl, offl) →
      1 ≤ env.config.num_memory_regions →
      1024 * 1024 ≤ (env.config.mem_regions.getD 0 ⟨0, 0, 0, 0⟩).size →
      env.cell.image.target_address + env.cell.image.size ≤
        (env.config.mem_regions.getD 0 ⟨0, 0, 0, 0⟩).size →
      env.cellIoremapOk = true → env.copyPreloadFault = false →
      env.lockInterrupted = false → s.enabled = false →
      jailhouse_cell_create env s =
        (-EINVAL, { s with online := onl, offlined := offl }, none)) := by
  refine ⟨?_, ?_, ?_⟩
  · intro env s h1 h2 hcase
    rcases hcase with hen | hmod
    · simp [jailhouse_enable, h1, h2, hen]
    · by_cases hen : s.enabled
      · simp [jailhouse_enable, h1, h2, hen]
      · simp [jailhouse_enable, h1, h2, hen, hmod]
  · intro env s h1 hen
    simp [jailhouse_disable, h1, hen]
  · intro env s onl offl h1 h2 h3 h4 h5 hloop hv1 hv2 hv3 h6 h7 h8 hen
    have hval : cell_mem_invalid env.config env.cell.image = false :=
      cell_mem_invalid_eq_false env.config env.cell.image hv1 hv2 hv3
    simp [jailhouse_cell_create, h1, h2, h3, h4, h5,
      sanitize_config_cpu_set_size, sanitize_config_cpu_mask, hloop,
      cell_mem_invalid_sanitize, hval, h6, h7, h8, hen]

/-- Claim C6, witness: concrete rejected invocations of all three
operations; the CreateCell one leaves CPUs 2 and 3 offlined. -/
theorem c6_witness :
    jailhouse_enable env_enable_boundary_pass s_enabled = (-EBUSY, s_enabled) ∧
    jailhouse_disable env_disable_ok s_disabled = (-EINVAL, s_disabled) ∧
    jailhouse_cell_create env_cell_ok s_disabled =
      (-EINVAL, ⟨false, false, {2, 3}, {0, 1}, false, false, 0⟩, none) := by
  refine ⟨c6_state_guards_amended.1 env_enable_boundary_pass s_enabled
      (by decide) (by decide) (Or.inl (by decide)),
    c6_state_guards_amended.2.1 env_disable_ok s_disabled (by decide)
      (by decide), ?_⟩
  have h := c6_state_guards_amended.2.2 env_cell_ok s_disabled
    ({0, 1} : Finset ℕ) ({2, 3} : Finset ℕ)
    (by decide) (by decide) (by decide) (by decide) (by decide) (by decide)
    (by decide) (by decide) (by decide) (by decide) (by decide) (by decide)
    (by decide)
  rw [h]
  decide

/-- Claim C7: once CreateCell reaches its memory validation (all earlier
steps succeeded) and all later steps would succeed, it fails with `-EINVAL`
exactly when the descriptor has fewer than one memory region, or the first
region is smaller than 1 MiB, or the preload image's target offset plus size
exceeds the region size; otherwise (1 MiB exactly with a fitting image
included) it is accepted and returns success. -/
theorem c7_cell_memory_validation (env : CellEnv) (s : KState)
    (onl offl : Finset ℕ)
    (h1 : env.copyCellFault = false) (h2 : env.cell.num_preload_images = 1)
    (h3 : env.copyImageFault = false) (h4 : env.kmallocOk = true)
    (h5 : env.copyConfigFault = false)
    (hloop : offline_loop env.downErr
        (mask_cpus env.config.cpu_set_size env.config.cpu_mask)
        s.online s.offlined = (none, onl, offl))
    (h6 : env.cellIoremapOk = true) (h7 : env.copyPreloadFault = false)
    (h8 : env.lockInterrupted = false) (hen : s.enabled = true)
    (h9 : env.hypercallResult = 0) :
    ((jailhouse_cell_create env s).1 = -EINVAL ↔
      (env.config.num_memory_regions < 1 ∨
        (env.config.mem_regions.getD 0 ⟨0, 0, 0, 0⟩).size < 1024 * 1024 ∨
        env.cell.image.target_address + env.cell.image.size >
          (env.config.mem_regions.getD 0 ⟨0, 0, 0, 0⟩).size)) ∧
    (¬ (env.config.num_memory_regions < 1 ∨
        (env.config.mem_regions.getD 0 ⟨0, 0, 0, 0⟩).size < 1024 * 1024 ∨
        env.cell.image.target_address + env.cell.image.size >
          (env.config.mem_regions.getD 0 ⟨0, 0, 0, 0⟩).size) →
      (jailhouse_cell_create env s).1 = 0) := by
  cases hb : cell_mem_invalid env.config env.cell.image with
  | true =>
    have hres : (jailhouse_cell_create env s).1 = -EINVAL := by
      simp [jailhouse_cell_create, h1, h2, h3, h4, h5,
        sanitize_config_cpu_set_size, sanitize_config_cpu_mask, hloop,
        cell_mem_invalid_sanitize, hb]
    have hd := (cell_mem_invalid_iff env.config env.cell.image).mp hb
    exact ⟨⟨fun _ => hd, fun _ => hres⟩, fun hn => absurd hd hn⟩
  | false =>
    have hres : (jailhouse_cell_create env s).1 = 0 := by
      simp [jailhouse_cell_create, h1, h2, h3, h4, h5,
        sanitize_config_cpu_set_size, sanitize_config_cpu_mask, hloop,
        cell_mem_invalid_sanitize, hb, h6, h7, h8, hen, h9]
    have hnd : ¬ (env.config.num_memory_regions < 1 ∨
        (env.config.mem_regions.getD 0 ⟨0, 0, 0, 0⟩).size < 1024 * 1024 ∨
        env.cell.image.target_address + env.cell.image.size >
          (env.config.mem_regions.getD 0 ⟨0, 0, 0, 0⟩).size) := by
      intro hd
      rw [(cell_mem_invalid_iff env.config env.cell.image).mpr hd] at hb
      simp at hb
    refine ⟨⟨fun hEq => ?_, fun hv => absurd hv hnd⟩, fun _ => hres⟩
    rw [hres] at hEq
    exact absurd hEq (by decide)

/-- Claim C7, witness: the 1 MiB-exactly region of `cell_cfg_min` with its
fitting 8 KiB preload image is accepted: CreateCell returns success. -/
theorem c7_witness :
    (cell_cfg_min.mem_regions.getD 0 ⟨0, 0, 0, 0⟩).size = 1024 * 1024 ∧
    (jailhouse_cell_create env_cell_ok s_cell).1 = 0 :=
  ⟨by decide,
    (c7_cell_memory_validation env_cell_ok s_cell ({0, 1} : Finset ℕ)
      ({2, 3} : Finset ℕ) (by decide) (by decide) (by decide) (by decide)
      (by decide) (by decide) (by decide) (by decide) (by decide) (by decide)
      (by decide)).2 (by decide)⟩

/-- Claim C8: when the CPU-offlining loop of CreateCell aborts because
`cpu_down` failed, the CPUs are visited in increasing core-id order, the
call returns the (nonzero) `cpu_down` error, every core already offlined by
this call stays offline and stays in `offlined_cpus` (no rollback), only
cores that were online were touched, and any later run of the loop leaves
those cores offline and recorded — a retried CreateCell does not re-offline
them. -/
theorem c8_cpu_offlining (env : CellEnv) (s : KState) (e : Int)
    (onl offl : Finset ℕ)
    (h1 : env.copyCellFault = false) (h2 : env.cell.num_preload_images = 1)
    (h3 : env.copyImageFault = false) (h4 : env.kmallocOk = true)
    (h5 : env.copyConfigFault = false)
    (hloop : offline_loop env.downErr
        (mask_cpus env.config.cpu_set_size env.config.cpu_mask)
        s.online s.offlined = (some e, onl, offl)) :
    List.Sorted (fun a b => a < b)
      (mask_cpus env.config.cpu_set_size env.config.cpu_mask) ∧
    e ≠ 0 ∧
    jailhouse_cell_create env s =
      (e, { s with online := onl, offlined := offl }, none) ∧
    s.offlined ⊆ offl ∧
    offl ⊆ s.offlined ∪ s.online ∧
    (∀ c ∈ offl, c ∉ s.offlined → c ∉ onl) ∧
    (∀ (downErr2 : Nat → Int) (cpus2 : List Nat),
      offl ⊆ (offline_loop downErr2 cpus2 onl offl).2.2 ∧
      (∀ c, c ∉ onl → c ∉ (offline_loop downErr2 cpus2 onl offl).2.1)) := by
  obtain ⟨i1, i2, i3, i4, i5⟩ := offline_loop_spec env.downErr
    (mask_cpus env.config.cpu_set_size env.config.cpu_mask)
    s.online s.offlined
  rw [hloop] at i1 i2 i3 i4 i5
  simp only at i1 i2 i3 i4 i5
  refine ⟨?_, i5 e rfl, ?_, i1, i3, i4, ?_⟩
  · simp only [mask_cpus]
    exact (List.sorted_lt_range _).filter _
  · simp [jailhouse_cell_create, h1, h2, h3, h4, h5,
      sanitize_config_cpu_set_size, sanitize_config_cpu_mask, hloop]
  · intro downErr2 cpus2
    obtain ⟨j1, j2, _, _, _⟩ := offline_loop_spec downErr2 cpus2 onl offl
    exact ⟨j1, fun c hc hmem => hc (j2 hmem)⟩

/-- Claim C8, witness: with CPUs 2 and 3 masked and `cpu_down` failing on
CPU 3, CreateCell aborts with `-16`, CPU 2 stays offlined and recorded, and
a retry of the loop (same mask, no further failures) keeps CPU 2 offline. -/
theorem c8_witness :
    jailhouse_cell_create env_cell_downfail s_cell =
      (-16, ⟨true, true, {2}, {0, 1, 3}, true, false, 0⟩, none) ∧
    List.Sorted (fun a b => a < b)
      (mask_cpus env_cell_downfail.config.cpu_set_size
        env_cell_downfail.config.cpu_mask) ∧
    (2 : ℕ) ∉ ({0, 1, 3} : Finset ℕ) ∧
    ({2} : Finset ℕ) ⊆
      (offline_loop (fun _ => 0) [2, 3] ({0, 1, 3} : Finset ℕ)
        ({2} : Finset ℕ)).2.2 := by
  have h := c8_cpu_offlining env_cell_downfail s_cell (-16)
    ({0, 1, 3} : Finset ℕ) ({2} : Finset ℕ) (by decide) (by decide)
    (by decide) (by decide) (by decide) (by decide)
  refine ⟨?_, h.1, ?_, ?_⟩
  · rw [h.2.2.1]; decide
  · exact h.2.2.2.2.2.1 2 (by decide) (by decide)
  · exact (h.2.2.2.2.2.2 (fun _ => 0) [2, 3]).1

/-- Claim C9: when CreateCell has mapped, zeroed and loaded the cell memory
and then the Coordination Lock acquisition is interrupted, it returns
`-EINTR` without unmapping: the count of outstanding temporary cell mappings
goes up by one on this exit path. -/
theorem c9_interrupted_lock_leaks_mapping (env : CellEnv) (s : KState)
    (onl offl : Finset ℕ)
    (h1 : env.copyCellFault = false) (h2 : env.cell.num_preload_images = 1)
    (h3 : env.copyImageFault = false) (h4 : env.kmallocOk = true)
    (h5 : env.copyConfigFault = false)
    (hloop : offline_loop env.downErr
        (mask_cpus env.config.cpu_set_size env.config.cpu_mask)
        s.online s.offlined = (none, onl, offl))
    (hval : cell_mem_invalid env.config env.cell.image = false)
    (h6 : env.cellIoremapOk = true) (h7 : env.copyPreloadFault = false)
    (h8 : env.lockInterrupted = true) :
    jailhouse_cell_create env s =
      (-EINTR,
        { s with online := onl, offlined := offl,
                 cellMaps := s.cellMaps + 1 },
        none) := by
  simp [jailhouse_cell_create, h1, h2, h3, h4, h5,
    sanitize_config_cpu_set_size, sanitize_config_cpu_mask, hloop,
    cell_mem_invalid_sanitize, hval, h6, h7, h8]

/-- Claim C9, witness: a concrete interrupted CreateCell leaves one
outstanding cell mapping. -/
theorem c9_witness :
    jailhouse_cell_create env_cell_intr s_cell =
      (-EINTR, ⟨true, true, {2, 3}, {0, 1}, true, false, 1⟩, none) := by
  have h := c9_interrupted_lock_leaks_mapping env_cell_intr s_cell
    ({0, 1} : Finset ℕ) ({2, 3} : Finset ℕ) (by decide) (by decide)
    (by decide) (by decide) (by decide) (by decide) (by decide) (by decide)
    (by decide) (by decide)
  rw [h]
  decide

/-- Every configuration CreateCell hands to the create-cell hypercall is the
copied-in descriptor after its name was NUL-terminated. -/
lemma cell_create_hcall_arg (env : CellEnv) (s : KState) :
    (jailhouse_cell_create env s).2.2 = none ∨
    (jailhouse_cell_create env s).2.2 = some (sanitize_config env.config) := by
  by_cases h1 : env.copyCellFault
  · simp [jailhouse_cell_create, h1]
  by_cases h2 : env.cell.num_preload_images = 1
  case neg => simp [jailhouse_cell_create, h1, h2]
  by_cases h3 : env.copyImageFault
  · simp [jailhouse_cell_create, h1, h2, h3]
  by_cases h4 : env.kmallocOk
  case neg => simp [jailhouse_cell_create, h1, h2, h3, h4]
  by_cases h5 : env.copyConfigFault
  · simp [jailhouse_cell_create, h1, h2, h3, h4, h5]
  rcases hloop : offline_loop env.downErr
      (mask_cpus env.config.cpu_set_size env.config.cpu_mask)
      s.online s.offlined with ⟨eo, onl, offl⟩
  cases eo with
  | some e =>
    simp [jailhouse_cell_create, h1, h2, h3, h4, h5,
      sanitize_config_cpu_set_size, sanitize_config_cpu_mask, hloop]
  | none =>
    by_cases hv : cell_mem_invalid env.config env.cell.image
    · simp [jailhouse_cell_create, h1, h2, h3, h4, h5,
        sanitize_config_cpu_set_size, sanitize_config_cpu_mask, hloop,
        cell_mem_invalid_sanitize, hv]
    by_cases h6 : env.cellIoremapOk
    case neg =>
      simp [jailhouse_cell_create, h1, h2, h3, h4, h5,
        sanitize_config_cpu_set_size, sanitize_config_cpu_mask, hloop,
        cell_mem_invalid_sanitize, hv, h6]
    by_cases h7 : env.copyPreloadFault
    · simp [jailhouse_cell_create, h1, h2, h3, h4, h5,
        sanitize_config_cpu_set_size, sanitize_config_cpu_mask, hloop,
        cell_mem_invalid_sanitize, hv, h6, h7]
    by_cases h8 : env.lockInterrupted
    · simp [jailhouse_cell_create, h1, h2, h3, h4, h5,
        sanitize_config_cpu_set_size, sanitize_config_cpu_mask, hloop,
        cell_mem_invalid_sanitize, hv, h6, h7, h8]
    by_cases h9 : s.enabled
    case neg =>
      simp [jailhouse_cell_create, h1, h2, h3, h4, h5,
        sanitize_config_cpu_set_size, sanitize_config_cpu_mask, hloop,
        cell_mem_invalid_sanitize, hv, h6, h7, h8, h9]
    by_cases h10 : env.hypercallResult = 0
    · simp [jailhouse_cell_create, h1, h2, h3, h4, h5,
        sanitize_config_cpu_set_size, sanitize_config_cpu_mask, hloop,
        cell_mem_invalid_sanitize, hv, h6, h7, h8, h9, h10]
    · simp [jailhouse_cell_create, h1, h2, h3, h4, h5,
        sanitize_config_cpu_set_size, sanitize_config_cpu_mask, hloop,
        cell_mem_invalid_sanitize, hv, h6, h7, h8, h9, h10]

/-- Claim C10: whatever name bytes the caller supplies (the name array being
`JAILHOUSE_CELL_NAME_MAXLEN + 1` bytes long), the descriptor CreateCell
hands to the hypervisor has byte 0 at index `JAILHOUSE_CELL_NAME_MAXLEN`:
the name is always NUL-terminated. -/
theorem c10_name_nul_terminated (env : CellEnv) (s : KState) (cfg : CellDesc)
    (hlen : env.config.name.length = JAILHOUSE_CELL_NAME_MAXLEN + 1)
    (hcall : (jailhouse_cell_create env s).2.2 = some cfg) :
    cfg.name[JAILHOUSE_CELL_NAME_MAXLEN]? = some 0 := by
  rcases cell_create_hcall_arg env s with hnone | hsome
  · rw [hcall] at hnone
    exact absurd hnone (by simp)
  · rw [hcall] at hsome
    have hcfg : cfg = sanitize_config env.config := Option.some.inj hsome

    rw [hcfg]
    simp only [sanitize_config]
    rw [List.getElem?_set_self]
    rw [hlen]
    omega

/-- Claim C10, witness: the sample descriptor's 32-byte name of `A`s is
NUL-terminated at index 31 in the configuration handed to the hypercall. -/
theorem c10_witness :
    cell_cfg_min.name.length = JAILHOUSE_CELL_NAME_MAXLEN + 1 ∧
    (jailhouse_cell_create env_cell_ok s_cell).2.2 =
      some (sanitize_config cell_cfg_min) ∧
    (sanitize_config cell_cfg_min).name[JAILHOUSE_CELL_NAME_MAXLEN]? =
      some 0 :=
  ⟨by decide, by decide,
    c10_name_nul_terminated env_cell_ok s_cell (sanitize_config cell_cfg_min)
      (by decide) (by decide)⟩

end Jailhouse
